import Mathlib

/-!
Verification development for the solar-system camera controller
(`src/js/cameraController.js` and its duplicated variant `src/unnamed/part_006`).

The controller owns a camera record `(x, y, scale)`, interprets mouse/touch
events, applies a CSS transform to a "world" element, and runs a fly-in /
navigate sequence when a planet marker is clicked.  Both source files share
the same handler structure and differ only in the tuning constants
(`MIN_SCALE`, `FLY_IN_SCALE`) and in an initialization warning present only in
`part_006`; the embedding is therefore parameterized by a `Config` record with
one instance per file.

JavaScript numbers are modelled by `ℚ` (the claims under study are exact
algebraic identities, clamping inequalities and state-field frame conditions,
none of which depend on rounding).  `getTouchDistance` computes
`Math.hypot(dx, dy)`, an irrational square root; the embedding abstracts the
distance function as a parameter `dist`, so every theorem below holds for the
actual Euclidean distance as a particular instance (no claim depends on the
value of the distance, only on how the handlers consume it).
-/

namespace Solar

/-- Tuning constants of one controller instance (section "Camera constraints
and fly-in settings" in both source files). -/
structure Config where
  minScale : ℚ
  maxScale : ℚ
  flyInScale : ℚ
  flyInVerticalOffset : ℚ
deriving DecidableEq

/-- Constants of `src/js/cameraController.js` lines 21-24:
`MIN_SCALE = 0.1`, `MAX_SCALE = 3`, `FLY_IN_SCALE = 10`,
`FLY_IN_VERTICAL_OFFSET = 120`. -/
def mainCfg : Config :=
  { minScale := 1/10, maxScale := 3, flyInScale := 10, flyInVerticalOffset := 120 }

/-- Constants of `src/unnamed/part_006` lines 7-10:
`MIN_SCALE = 0.4`, `MAX_SCALE = 3`, `FLY_IN_SCALE = 6`,
`FLY_IN_VERTICAL_OFFSET = 120`. -/
def p6Cfg : Config :=
  { minScale := 2/5, maxScale := 3, flyInScale := 6, flyInVerticalOffset := 120 }

/-- The camera record (`const camera = { x: -1500, y: -1500, scale: 1 }`). -/
structure Camera where
  x : ℚ
  y : ℚ
  scale : ℚ
deriving DecidableEq

/-- A DOM rectangle as returned by `getBoundingClientRect()`. -/
structure Rect where
  left : ℚ
  top : ℚ
  width : ℚ
  height : ℚ
deriving DecidableEq

/-- The transformable world element (`#solar-system`): the controller reads
only its `offsetWidth` / `offsetHeight`. -/
structure WorldEl where
  offsetWidth : ℚ
  offsetHeight : ℚ
deriving DecidableEq

/-- The container element (`#solsystem-container`, called `#viewport` in
`part_006`): the controller reads only its bounding rectangle. -/
structure ContainerEl where
  rect : Rect
deriving DecidableEq

/-- A planet marker element: its `dataset.name` (possibly absent) and its
current bounding rectangle. -/
structure Marker where
  name : Option String
  rect : Rect
deriving DecidableEq

/-- One touch contact (`clientX` / `clientY`). -/
structure Touch where
  clientX : ℚ
  clientY : ℚ
deriving DecidableEq

/-- The mutable controller state: the camera plus the module-level flags and
references (`isFlying`, `isDragging`, `lastX`, `lastY`, `isTouchDragging`,
`lastTouchX`, `lastTouchY`, `lastPinchDistance`). -/
structure CtrlState where
  camera : Camera
  isFlying : Bool
  isDragging : Bool
  lastX : ℚ
  lastY : ℚ
  isTouchDragging : Bool
  lastTouchX : ℚ
  lastTouchY : ℚ
  lastPinchDistance : ℚ
deriving DecidableEq

/-- The state at page load: camera `(-1500, -1500, 1)`, all flags false, all
references `0` (both source files agree on these). -/
def initState : CtrlState :=
  { camera := { x := -1500, y := -1500, scale := 1 },
    isFlying := false, isDragging := false, lastX := 0, lastY := 0,
    isTouchDragging := false, lastTouchX := 0, lastTouchY := 0,
    lastPinchDistance := 0 }

/-- Observable DOM side effects emitted by the handlers, in program order:
style-transform writes, class additions, the transition style, the deferred
navigation (`setTimeout` of `window.location.href`), and the `console.warn`
of `part_006`. -/
inductive Effect where
  | setTransform (s : String)
  | addClass (target cls : String)
  | setTransition (s : String)
  | scheduleNav (url : String) (delayMs : ℚ)
  | warn (msg : String)
deriving DecidableEq

/-- The CSS transform string written by `updateCamera`. -/
def transformString (c : Camera) : String :=
  "translate(" ++ toString c.x ++ "px, " ++ toString c.y ++ "px) scale(" ++
    toString c.scale ++ ")"

/-- `updateCamera` (lines 202-206): early-returns when the world element is
missing, otherwise writes the transform string.  Embedded in state-passing
style: it returns the camera it leaves behind together with the effects. -/
def updateCamera (world : Option WorldEl) (c : Camera) : Camera × List Effect :=
  match world with
  | none => (c, [])
  | some _ => (c, [Effect.setTransform (transformString c)])

/-- `focusOnPlanet` (lines 218-256): guard on missing elements, guard on a
falsy `dataset.name` (absent or empty string), coordinate inversion at the
current scale, class/flag mutation, new camera from the fly-in formulas,
transition style, transform write, deferred navigation. -/
def focusOnPlanet (cfg : Config) (world : Option WorldEl)
    (container : Option ContainerEl) (planetEl : Marker) (s : CtrlState) :
    CtrlState × List Effect :=
  match world, container with
  | some w, some cont =>
    match planetEl.name with
    | none => (s, [])
    | some nm =>
      if nm.isEmpty then (s, [])
      else
        let rect := planetEl.rect
        let planetScreenX := rect.left + rect.width / 2
        let planetScreenY := rect.top + rect.height / 2
        let cr := cont.rect
        let baseX := cr.left + cr.width / 2
        let baseY := cr.top + cr.height / 2
        let originX := w.offsetWidth / 2
        let originY := w.offsetHeight / 2
        let currentScale := s.camera.scale
        let targetScale := cfg.flyInScale
        let planetWorldX :=
          originX + (planetScreenX - baseX - s.camera.x - originX) / currentScale
        let planetWorldY :=
          originY + (planetScreenY - baseY - s.camera.y - originY) / currentScale
        let newCam : Camera :=
          { x := -(targetScale * (planetWorldX - originX) + originX),
            y := -(targetScale * (planetWorldY - originY) + originY) -
                   cfg.flyInVerticalOffset,
            scale := targetScale }
        let upd := updateCamera world newCam
        ({ s with isFlying := true, camera := upd.1 },
          [Effect.addClass "planet" "is-target",
           Effect.addClass "solar-system" "is-flying",
           Effect.addClass "container" "is-flying",
           Effect.setTransition "transform 3s cubic-bezier(0.2, 0.8, 0.2, 1)"]
          ++ upd.2
          ++ [Effect.scheduleNav ("planet-pages/planet.html?planet=" ++ nm) 1150])
  | _, _ => (s, [])

/-- The `mousedown` handler (container-bound, lines 65-74). -/
def onMousedown (onPlanet : Bool) (cx cy : ℚ) (s : CtrlState) : CtrlState :=
  if s.isFlying then s
  else if onPlanet then s
  else { s with isDragging := true, lastX := cx, lastY := cy }

/-- The `mousemove` handler (window-bound, lines 92-104). -/
def onMousemove (world : Option WorldEl) (cx cy : ℚ) (s : CtrlState) :
    CtrlState × List Effect :=
  if s.isDragging = false then (s, [])
  else if s.isFlying then (s, [])
  else
    let c := { s.camera with
                 x := s.camera.x + (cx - s.lastX),
                 y := s.camera.y + (cy - s.lastY) }
    let upd := updateCamera world c
    ({ s with camera := upd.1, lastX := cx, lastY := cy }, upd.2)

/-- The `wheel` handler (container-bound, lines 108-119):
`zoomAmount = deltaY * -0.001`, clamp into `[MIN_SCALE, MAX_SCALE]`. -/
def onWheel (cfg : Config) (world : Option WorldEl) (deltaY : ℚ)
    (s : CtrlState) : CtrlState × List Effect :=
  if s.isFlying then (s, [])
  else
    let zoomAmount := deltaY * (-1/1000)
    let c := { s.camera with
                 scale := min (max cfg.minScale (s.camera.scale + zoomAmount))
                              cfg.maxScale }
    let upd := updateCamera world c
    ({ s with camera := upd.1 }, upd.2)

/-- The `touchstart` handler (container-bound, lines 135-150). -/
def onTouchstart (dist : Touch → Touch → ℚ) (onPlanet : Bool)
    (touches : List Touch) (s : CtrlState) : CtrlState :=
  if s.isFlying then s
  else if onPlanet then s
  else
    match touches with
    | [t] => { s with isTouchDragging := true,
                      lastTouchX := t.clientX, lastTouchY := t.clientY }
    | [t1, t2] => { s with isTouchDragging := false,
                           lastPinchDistance := dist t1 t2 }
    | _ => s

/-- The `touchmove` handler (container-bound, lines 154-176): single-touch
drag, or pinch zoom with `zoomDelta = (currentDistance - lastPinchDistance) *
0.002` applied only when the recorded distance is truthy (nonzero), the
recorded distance being updated in the pinch branch regardless. -/
def onTouchmove (cfg : Config) (dist : Touch → Touch → ℚ)
    (world : Option WorldEl) (touches : List Touch) (s : CtrlState) :
    CtrlState × List Effect :=
  if s.isFlying then (s, [])
  else
    match touches with
    | [t] =>
      if s.isTouchDragging then
        let c := { s.camera with
                     x := s.camera.x + (t.clientX - s.lastTouchX),
                     y := s.camera.y + (t.clientY - s.lastTouchY) }
        let upd := updateCamera world c
        ({ s with camera := upd.1,
                  lastTouchX := t.clientX, lastTouchY := t.clientY }, upd.2)
      else (s, [])
    | [t1, t2] =>
      let currentDistance := dist t1 t2
      if s.lastPinchDistance ≠ 0 then
        let c := { s.camera with
                     scale := min (max cfg.minScale
                                    (s.camera.scale +
                                      (currentDistance - s.lastPinchDistance) *
                                        (2/1000)))
                                  cfg.maxScale }
        let upd := updateCamera world c
        ({ s with camera := upd.1, lastPinchDistance := currentDistance }, upd.2)
      else ({ s with lastPinchDistance := currentDistance }, [])
    | _ => (s, [])

/-- The `touchend` handler (container-bound, lines 179-193). -/
def onTouchend (touches : List Touch) (s : CtrlState) : CtrlState :=
  if s.isFlying then s
  else
    match touches with
    | [] => { s with isTouchDragging := false, lastPinchDistance := 0 }
    | [t] => { s with isTouchDragging := true,
                      lastTouchX := t.clientX, lastTouchY := t.clientY,
                      lastPinchDistance := 0 }
    | _ => s

/-- One input event.  A `click` carries `event.target.closest(".planet")`
(`none` when the click did not land on a marker); `mousedown` / `touchstart`
carry whether the press originated on a marker. -/
inductive Event where
  | click (target : Option Marker)
  | mousedown (onPlanet : Bool) (clientX clientY : ℚ)
  | mouseup
  | mousemove (clientX clientY : ℚ)
  | wheel (deltaY : ℚ)
  | touchstart (onPlanet : Bool) (touches : List Touch)
  | touchmove (touches : List Touch)
  | touchend (touches : List Touch)
deriving DecidableEq

/-- One dispatch step of the controller.  Handlers registered with
`solsystemContainer?.addEventListener` never fire when the container is
absent, the `click` handler (bound to `solarWorld`) never fires when the
world element is absent, and `mouseup` / `mousemove` are window-bound and
always fire. -/
def step (cfg : Config) (dist : Touch → Touch → ℚ) (world : Option WorldEl)
    (container : Option ContainerEl) (e : Event) (s : CtrlState) :
    CtrlState × List Effect :=
  match e with
  | .click target =>
    match world with
    | none => (s, [])
    | some _ =>
      match target with
      | none => (s, [])
      | some planetEl =>
        if s.isFlying then (s, [])
        else focusOnPlanet cfg world container planetEl s
  | .mousedown onPlanet cx cy =>
    match container with
    | none => (s, [])
    | some _ => (onMousedown onPlanet cx cy s, [])
  | .mouseup => ({ s with isDragging := false }, [])
  | .mousemove cx cy => onMousemove world cx cy s
  | .wheel d =>
    match container with
    | none => (s, [])
    | some _ => onWheel cfg world d s
  | .touchstart onPlanet ts =>
    match container with
    | none => (s, [])
    | some _ => (onTouchstart dist onPlanet ts s, [])
  | .touchmove ts =>
    match container with
    | none => (s, [])
    | some _ => onTouchmove cfg dist world ts s
  | .touchend ts =>
    match container with
    | none => (s, [])
    | some _ => (onTouchend ts s, [])

/-- Run a sequence of events, accumulating the emitted effects. -/
def run (cfg : Config) (dist : Touch → Touch → ℚ) (world : Option WorldEl)
    (container : Option ContainerEl) :
    List Event → CtrlState → CtrlState × List Effect
  | [], s => (s, [])
  | e :: es, s =>
    let p := step cfg dist world container e s
    let q := run cfg dist world container es p.1
    (q.1, p.2 ++ q.2)

/-- The initialization warning of `src/unnamed/part_006` lines 16-18
(`console.warn` when either element is missing); `src/js/cameraController.js`
has no corresponding code. -/
def p6InitEffects (world : Option WorldEl) (container : Option ContainerEl) :
    List Effect :=
  if container.isNone || world.isNone then
    [Effect.warn "Camera controller: missing #viewport or #solar-system"]
  else []

/-- The coordinate inversion used by `focusOnPlanet` (lines 236-237): recover
the untransformed world position of a screen point under a camera. -/
def worldOfScreen (originX originY baseX baseY : ℚ) (c : Camera)
    (sx sy : ℚ) : ℚ × ℚ :=
  (originX + (sx - baseX - c.x - originX) / c.scale,
   originY + (sy - baseY - c.y - originY) / c.scale)

/-- Modelled from the spec: the forward rendering of a world point under a
camera, i.e. where the CSS transform `translate(x, y) scale(s)` (as described
in the spec's fly-in derivation, steps 3-5) places a world point on screen.
The browser's layout engine is not part of the repository; this is the
algebraic inverse of the code's `worldOfScreen` inversion formula. -/
def screenOfWorld (originX originY baseX baseY : ℚ) (c : Camera)
    (wx wy : ℚ) : ℚ × ℚ :=
  (baseX + c.x + originX + c.scale * (wx - originX),
   baseY + c.y + originY + c.scale * (wy - originY))

/-! ## Helper lemmas and concrete fixtures -/

/-- `updateCamera` never changes the camera it is given; it only emits the
transform-write effect. -/
theorem updateCamera_fst (world : Option WorldEl) (c : Camera) :
    (updateCamera world c).1 = c := by
  cases world <;> rfl

/-- A trivially computable pinch-distance function used to instantiate the
abstract `dist` parameter in concrete evaluations. -/
def distW : Touch → Touch → ℚ := fun _ _ => 0

/-- A concrete container fixture: rectangle `(0, 0, 800, 600)`, center
`(400, 300)`. -/
def contW : ContainerEl := ⟨⟨0, 0, 800, 600⟩⟩

/-- A concrete world fixture: `3000 × 3000`, so origin `(1500, 1500)`. -/
def wW : WorldEl := ⟨3000, 3000⟩

/-- A concrete named marker fixture with screen center `(125, 125)`. -/
def mW : Marker := ⟨some "mars", ⟨100, 100, 50, 50⟩⟩

/-- A concrete named marker fixture whose screen center `(400, 300)` equals
the center of `contW`. -/
def mCenterW : Marker := ⟨some "mars", ⟨390, 295, 20, 10⟩⟩

/-- A concrete marker fixture with no `dataset.name`. -/
def mNoNameW : Marker := ⟨none, ⟨0, 0, 10, 10⟩⟩

/-- The controller state with the identity camera (`offset = (0,0)`,
`scale = 1`) and no interaction in progress. -/
def idStateW : CtrlState := { initState with camera := ⟨0, 0, 1⟩ }

/-- The controller state after a fly-in has started (`isFlying = true`). -/
def flyW : CtrlState := { initState with isFlying := true }

/-! ## Claims -/

/-- C1: a focus invocation on a marker with a (truthy) name while not flying
first recovers the marker's untransformed world position at the click-time
scale, `worldX = originX + (screenX − baseX − offsetX − originX) / currentScale`
(likewise for Y), and then sets the camera to
`newOffsetX = −(targetScale·(worldX − originX) + originX)`,
`newOffsetY = −(targetScale·(worldY − originY) + originY) − VERTICAL_OFFSET`,
and `scale = targetScale` (`FLY_IN_SCALE`). -/
theorem c1_focus_formula (cfg : Config) (dist : Touch → Touch → ℚ)
    (w : WorldEl) (cont : ContainerEl) (m : Marker) (nm : String) (s : CtrlState)
    (screenX screenY baseX baseY originX originY worldX worldY : ℚ)
    (hname : m.name = some nm) (hne : nm.isEmpty = false)
    (hfly : s.isFlying = false)
    (hsx : screenX = m.rect.left + m.rect.width / 2)
    (hsy : screenY = m.rect.top + m.rect.height / 2)
    (hbx : baseX = cont.rect.left + cont.rect.width / 2)
    (hby : baseY = cont.rect.top + cont.rect.height / 2)
    (hox : originX = w.offsetWidth / 2)
    (hoy : originY = w.offsetHeight / 2)
    (hwx : worldX = originX + (screenX - baseX - s.camera.x - originX) / s.camera.scale)
    (hwy : worldY = originY + (screenY - baseY - s.camera.y - originY) / s.camera.scale) :
    (step cfg dist (some w) (some cont) (Event.click (some m)) s).1.camera =
      { x := -(cfg.flyInScale * (worldX - originX) + originX),
        y := -(cfg.flyInScale * (worldY - originY) + originY) -
               cfg.flyInVerticalOffset,
        scale := cfg.flyInScale } := by
  subst hsx hsy hbx hby hox hoy hwx hwy
  simp [step, focusOnPlanet, updateCamera, hname, hne, hfly]

/-- Witness for C1 at the concrete fixtures: clicking `mW` (screen center
`(125, 125)`) from the initial camera yields exactly the formula's output,
with `worldX = 1225`, `worldY = 1325`. -/
theorem c1_focus_formula_witness :
    (step mainCfg distW (some wW) (some contW) (Event.click (some mW))
        initState).1.camera =
      { x := -(mainCfg.flyInScale * (1225 - 1500) + 1500),
        y := -(mainCfg.flyInScale * (1325 - 1500) + 1500) -
               mainCfg.flyInVerticalOffset,
        scale := mainCfg.flyInScale } :=
  c1_focus_formula mainCfg distW wW contW mW "mars" initState
    125 125 400 300 1500 1500 1225 1325
    rfl rfl rfl
    (by norm_num [mW]) (by norm_num [mW]) (by norm_num [contW])
    (by norm_num [contW]) (by norm_num [wW]) (by norm_num [wW])
    (by norm_num [initState]) (by norm_num [initState])

/-- C6: clicking a marker whose `dataset.name` is absent or empty is a
complete no-op: the state (camera, `isFlying`, everything else) is unchanged
and no effect (class, transition, transform, navigation) is emitted. -/
theorem c6_unnamed_marker_noop (cfg : Config) (dist : Touch → Touch → ℚ)
    (w : WorldEl) (cont : ContainerEl) (m : Marker) (s : CtrlState)
    (h : m.name = none ∨ m.name = some "") :
    step cfg dist (some w) (some cont) (Event.click (some m)) s = (s, []) := by
  rcases h with h | h <;> by_cases hf : s.isFlying <;>
    (simp [step, focusOnPlanet, h, hf]; try decide)

/-- Witness for C6: clicking the nameless marker fixture from the initial
state changes nothing and emits nothing. -/
theorem c6_unnamed_marker_noop_witness :
    step mainCfg distW (some wW) (some contW) (Event.click (some mNoNameW))
        initState = (initState, []) :=
  c6_unnamed_marker_noop mainCfg distW wW contW mNoNameW initState (Or.inl rfl)

/-- C9: a `touchend` while not flying with exactly one remaining contact
switches to single-touch drag seeded at that contact's coordinates and resets
the pinch distance to `0`; with zero remaining contacts it resets both the
drag flag and the pinch distance. -/
theorem c9_touchend_reseed (cfg : Config) (dist : Touch → Touch → ℚ)
    (world : Option WorldEl) (cont : ContainerEl) (t : Touch) (s : CtrlState)
    (hfly : s.isFlying = false) :
    step cfg dist world (some cont) (Event.touchend [t]) s =
      ({ s with isTouchDragging := true, lastTouchX := t.clientX,
                lastTouchY := t.clientY, lastPinchDistance := 0 }, []) ∧
    step cfg dist world (some cont) (Event.touchend []) s =
      ({ s with isTouchDragging := false, lastPinchDistance := 0 }, []) := by
  constructor <;> simp [step, onTouchend, hfly]

/-- Witness for C9 at a concrete remaining contact `(7, 9)` from a state with
a stale drag reference and a nonzero pinch distance. -/
theorem c9_touchend_reseed_witness :
    step mainCfg distW (some wW) (some contW) (Event.touchend [⟨7, 9⟩])
        { initState with lastTouchX := 50, lastTouchY := 60,
                         lastPinchDistance := 40 } =
      ({ initState with isTouchDragging := true, lastTouchX := 7,
                        lastTouchY := 9, lastPinchDistance := 0 }, []) ∧
    step mainCfg distW (some wW) (some contW) (Event.touchend [])
        { initState with lastTouchX := 50, lastTouchY := 60,
                         lastPinchDistance := 40 } =
      ({ initState with isTouchDragging := false, lastTouchX := 50,
                        lastTouchY := 60, lastPinchDistance := 0 }, []) :=
  c9_touchend_reseed mainCfg distW (some wW) contW ⟨7, 9⟩
    { initState with lastTouchX := 50, lastTouchY := 60,
                     lastPinchDistance := 40 } rfl

/-- C10: wheel and pinch zoom updates leave both offsets unchanged (zoom is
not anchored to the cursor or pinch midpoint); pan updates (mouse drag and
single-touch drag) leave the scale unchanged; and `updateCamera` leaves every
camera field unchanged, only emitting the transform write. -/
theorem c10_frame_conditions (cfg : Config) (dist : Touch → Touch → ℚ)
    (world : Option WorldEl) (container : Option ContainerEl)
    (d cx cy : ℚ) (t t1 t2 : Touch) (s : CtrlState) (c : Camera) :
    ((step cfg dist world container (Event.wheel d) s).1.camera.x = s.camera.x ∧
     (step cfg dist world container (Event.wheel d) s).1.camera.y = s.camera.y) ∧
    ((step cfg dist world container (Event.touchmove [t1, t2]) s).1.camera.x =
        s.camera.x ∧
     (step cfg dist world container (Event.touchmove [t1, t2]) s).1.camera.y =
        s.camera.y) ∧
    (step cfg dist world container (Event.mousemove cx cy) s).1.camera.scale =
      s.camera.scale ∧
    (step cfg dist world container (Event.touchmove [t]) s).1.camera.scale =
      s.camera.scale ∧
    (updateCamera world c).1 = c := by
  refine ⟨⟨?_, ?_⟩, ⟨?_, ?_⟩, ?_, ?_, updateCamera_fst world c⟩ <;>
    cases container <;>
      simp [step, onWheel, onTouchmove, onMousemove, updateCamera_fst] <;>
        split_ifs <;> simp [updateCamera_fst]

/-- The controller state with a mouse drag in progress. -/
def dragW : CtrlState := { initState with isDragging := true }

/-- C4: once `isFlying` is true, every handler leaves the camera unchanged
and no code path resets `isFlying` to false — the flying state is terminal. -/
theorem c4_flying_terminal (cfg : Config) (dist : Touch → Touch → ℚ)
    (world : Option WorldEl) (container : Option ContainerEl) (e : Event)
    (s : CtrlState) (h : s.isFlying = true) :
    (step cfg dist world container e s).1.camera = s.camera ∧
    (step cfg dist world container e s).1.isFlying = true := by
  cases e with
  | click target => cases world <;> cases target <;> simp [step, h]
  | mousedown op cx cy => cases container <;> simp [step, onMousedown, h]
  | mouseup => simp [step, h]
  | mousemove cx cy => simp [step, onMousemove, h]
  | wheel d => cases container <;> simp [step, onWheel, h]
  | touchstart op ts => cases container <;> simp [step, onTouchstart, h]
  | touchmove ts => cases container <;> simp [step, onTouchmove, h]
  | touchend ts => cases container <;> simp [step, onTouchend, h]

/-- Witness for C4: from a flying state, a wheel event changes neither the
camera nor the flag. -/
theorem c4_flying_terminal_witness :
    (step mainCfg distW (some wW) (some contW) (Event.wheel (-500)) flyW).1.camera =
      flyW.camera ∧
    (step mainCfg distW (some wW) (some contW) (Event.wheel (-500)) flyW).1.isFlying =
      true :=
  c4_flying_terminal mainCfg distW (some wW) (some contW) (Event.wheel (-500))
    flyW rfl

/-- C8: pan accumulation is additive and order-independent — one mouse move
by `(dx1+dx2, dy1+dy2)` produces the same camera as the moves `(dx1, dy1)`
then `(dx2, dy2)`, and the same as the moves in the other order. -/
theorem c8_pan_additivity (cfg : Config) (dist : Touch → Touch → ℚ)
    (world : Option WorldEl) (container : Option ContainerEl) (s : CtrlState)
    (dx1 dy1 dx2 dy2 : ℚ) (hd : s.isDragging = true) (hf : s.isFlying = false) :
    (step cfg dist world container
        (Event.mousemove (s.lastX + (dx1 + dx2)) (s.lastY + (dy1 + dy2)))
        s).1.camera =
      (step cfg dist world container
          (Event.mousemove (s.lastX + dx1 + dx2) (s.lastY + dy1 + dy2))
          (step cfg dist world container
              (Event.mousemove (s.lastX + dx1) (s.lastY + dy1)) s).1).1.camera ∧
    (step cfg dist world container
        (Event.mousemove (s.lastX + (dx1 + dx2)) (s.lastY + (dy1 + dy2)))
        s).1.camera =
      (step cfg dist world container
          (Event.mousemove (s.lastX + dx2 + dx1) (s.lastY + dy2 + dy1))
          (step cfg dist world container
              (Event.mousemove (s.lastX + dx2) (s.lastY + dy2)) s).1).1.camera := by
  constructor <;>
    · simp [step, onMousemove, hd, hf, updateCamera_fst, Camera.mk.injEq]
      constructor <;> ring

/-- Witness for C8: from the dragging state, one move by `(8, 10)` equals the
moves `(3, 4)` then `(5, 6)` in either order. -/
theorem c8_pan_additivity_witness :
    (step mainCfg distW none none
        (Event.mousemove (dragW.lastX + (3 + 5)) (dragW.lastY + (4 + 6)))
        dragW).1.camera =
      (step mainCfg distW none none
          (Event.mousemove (dragW.lastX + 3 + 5) (dragW.lastY + 4 + 6))
          (step mainCfg distW none none
              (Event.mousemove (dragW.lastX + 3) (dragW.lastY + 4))
              dragW).1).1.camera ∧
    (step mainCfg distW none none
        (Event.mousemove (dragW.lastX + (3 + 5)) (dragW.lastY + (4 + 6)))
        dragW).1.camera =
      (step mainCfg distW none none
          (Event.mousemove (dragW.lastX + 5 + 3) (dragW.lastY + 6 + 4))
          (step mainCfg distW none none
              (Event.mousemove (dragW.lastX + 5) (dragW.lastY + 6))
              dragW).1).1.camera :=
  c8_pan_additivity mainCfg distW none none dragW 3 4 5 6 rfl rfl

/-! ## Scale-shape lemmas for the clamp and positivity invariants -/

/-- `mousedown` never changes the scale. -/
theorem onMousedown_scale (op : Bool) (cx cy : ℚ) (s : CtrlState) :
    (onMousedown op cx cy s).camera.scale = s.camera.scale := by
  unfold onMousedown; split_ifs <;> rfl

/-- `mousemove` never changes the scale. -/
theorem onMousemove_scale (world : Option WorldEl) (cx cy : ℚ) (s : CtrlState) :
    (onMousemove world cx cy s).1.camera.scale = s.camera.scale := by
  unfold onMousemove; split_ifs <;> simp [updateCamera_fst]

/-- `touchstart` never changes the scale. -/
theorem onTouchstart_scale (dist : Touch → Touch → ℚ) (op : Bool)
    (ts : List Touch) (s : CtrlState) :
    (onTouchstart dist op ts s).camera.scale = s.camera.scale := by
  rcases ts with _ | ⟨a, _ | ⟨b, _ | _⟩⟩ <;> unfold onTouchstart <;>
    split_ifs <;> rfl

/-- `touchend` never changes the scale. -/
theorem onTouchend_scale (ts : List Touch) (s : CtrlState) :
    (onTouchend ts s).camera.scale = s.camera.scale := by
  rcases ts with _ | ⟨a, _ | ⟨b, _ | _⟩⟩ <;> unfold onTouchend <;>
    split_ifs <;> rfl

/-- A wheel step either keeps the scale or clamps some value into
`[minScale, maxScale]`. -/
theorem onWheel_scale_shape (cfg : Config) (world : Option WorldEl) (d : ℚ)
    (s : CtrlState) :
    (onWheel cfg world d s).1.camera.scale = s.camera.scale ∨
    ∃ z : ℚ, (onWheel cfg world d s).1.camera.scale =
      min (max cfg.minScale z) cfg.maxScale := by
  unfold onWheel
  split_ifs
  · left; rfl
  · right
    exact ⟨s.camera.scale + d * (-1/1000), by simp [updateCamera_fst]⟩

/-- A touchmove step either keeps the scale or clamps some value into
`[minScale, maxScale]`. -/
theorem onTouchmove_scale_shape (cfg : Config) (dist : Touch → Touch → ℚ)
    (world : Option WorldEl) (ts : List Touch) (s : CtrlState) :
    (onTouchmove cfg dist world ts s).1.camera.scale = s.camera.scale ∨
    ∃ z : ℚ, (onTouchmove cfg dist world ts s).1.camera.scale =
      min (max cfg.minScale z) cfg.maxScale := by
  rcases ts with _ | ⟨a, _ | ⟨b, _ | _⟩⟩
  · left; simp [onTouchmove]
  · simp only [onTouchmove]
    split_ifs <;> (left; simp [updateCamera_fst])
  · simp only [onTouchmove]
    split_ifs with h1 h2
    · left; rfl
    · right
      exact ⟨s.camera.scale + (dist a b - s.lastPinchDistance) * (2/1000),
        by simp [updateCamera_fst]⟩
    · left; rfl
  · left; simp [onTouchmove]

/-- `focusOnPlanet` either keeps the scale (a guard failed) or sets it to
`flyInScale`. -/
theorem focusOnPlanet_scale (cfg : Config) (world : Option WorldEl)
    (container : Option ContainerEl) (planetEl : Marker) (s : CtrlState) :
    (focusOnPlanet cfg world container planetEl s).1.camera.scale =
      s.camera.scale ∨
    (focusOnPlanet cfg world container planetEl s).1.camera.scale =
      cfg.flyInScale := by
  unfold focusOnPlanet
  cases world <;> cases container <;> try (left; rfl)
  rcases hn : planetEl.name with _ | nm
  · left; simp [hn]
  · simp only [hn]
    split_ifs
    · left; rfl
    · right; simp [updateCamera_fst]

/-- Every step either keeps the scale, clamps some value into
`[minScale, maxScale]`, or is a click that sets the fly-in scale. -/
theorem step_scale_shape (cfg : Config) (dist : Touch → Touch → ℚ)
    (world : Option WorldEl) (container : Option ContainerEl) (e : Event)
    (s : CtrlState) :
    (step cfg dist world container e s).1.camera.scale = s.camera.scale ∨
    (∃ z : ℚ, (step cfg dist world container e s).1.camera.scale =
        min (max cfg.minScale z) cfg.maxScale) ∨
    ((∃ t, e = Event.click t) ∧
      (step cfg dist world container e s).1.camera.scale = cfg.flyInScale) := by
  cases e with
  | click target =>
      cases world with
      | none => left; rfl
      | some w =>
          cases target with
          | none => left; rfl
          | some m =>
              by_cases hfly : s.isFlying
              · left; simp [step, hfly]
              · rcases focusOnPlanet_scale cfg (some w) container m s with h | h
                · left; simpa [step, hfly] using h
                · exact Or.inr (Or.inr ⟨⟨some m, rfl⟩, by simpa [step, hfly] using h⟩)
  | mousedown op cx cy =>
      cases container with
      | none => left; rfl
      | some cont => left; exact onMousedown_scale op cx cy s
  | mouseup => left; rfl
  | mousemove cx cy => left; exact onMousemove_scale world cx cy s
  | wheel d =>
      cases container with
      | none => left; rfl
      | some cont =>
          rcases onWheel_scale_shape cfg world d s with h | h
          · left; exact h
          · exact Or.inr (Or.inl h)
  | touchstart op ts =>
      cases container with
      | none => left; rfl
      | some cont => left; exact onTouchstart_scale dist op ts s
  | touchmove ts =>
      cases container with
      | none => left; rfl
      | some cont =>
          rcases onTouchmove_scale_shape cfg dist world ts s with h | h
          · left; exact h
          · exact Or.inr (Or.inl h)
  | touchend ts =>
      cases container with
      | none => left; rfl
      | some cont => left; exact onTouchend_scale ts s

/-- Over a click-free event sequence, the scale stays inside
`[minScale, maxScale]` whenever it starts there and `minScale ≤ maxScale`. -/
theorem run_scale_bounds (cfg : Config) (dist : Touch → Touch → ℚ)
    (world : Option WorldEl) (container : Option ContainerEl)
    (hmm : cfg.minScale ≤ cfg.maxScale) :
    ∀ es : List Event, (∀ t, Event.click t ∉ es) → ∀ s : CtrlState,
      cfg.minScale ≤ s.camera.scale → s.camera.scale ≤ cfg.maxScale →
      cfg.minScale ≤ (run cfg dist world container es s).1.camera.scale ∧
      (run cfg dist world container es s).1.camera.scale ≤ cfg.maxScale := by
  intro es
  induction es with
  | nil => intro _ s h1 h2; exact ⟨h1, h2⟩
  | cons e tl ih =>
      intro hnc s h1 h2
      have hb : cfg.minScale ≤ (step cfg dist world container e s).1.camera.scale ∧
          (step cfg dist world container e s).1.camera.scale ≤ cfg.maxScale := by
        rcases step_scale_shape cfg dist world container e s with
          hs | ⟨z, hs⟩ | ⟨⟨t, het⟩, _⟩
        · rw [hs]; exact ⟨h1, h2⟩
        · rw [hs]; exact ⟨le_min (le_max_left _ _) hmm, min_le_right _ _⟩
        · exact absurd (het ▸ List.mem_cons_self e tl) (hnc t)
      simpa only [run] using
        ih (fun t ht => hnc t (List.mem_cons_of_mem _ ht)) _ hb.1 hb.2

/-- Over any event sequence (clicks included), the scale never drops below
`minScale`, provided `minScale ≤ maxScale` and `minScale ≤ flyInScale`. -/
theorem run_scale_lb (cfg : Config) (dist : Touch → Touch → ℚ)
    (world : Option WorldEl) (container : Option ContainerEl)
    (hmm : cfg.minScale ≤ cfg.maxScale) (hfs : cfg.minScale ≤ cfg.flyInScale) :
    ∀ es : List Event, ∀ s : CtrlState, cfg.minScale ≤ s.camera.scale →
      cfg.minScale ≤ (run cfg dist world container es s).1.camera.scale := by
  intro es
  induction es with
  | nil => intro s h; exact h
  | cons e tl ih =>
      intro s h
      have hb : cfg.minScale ≤ (step cfg dist world container e s).1.camera.scale := by
        rcases step_scale_shape cfg dist world container e s with
          hs | ⟨z, hs⟩ | ⟨_, hs⟩
        · rw [hs]; exact h
        · rw [hs]; exact le_min (le_max_left _ _) hmm
        · rw [hs]; exact hfs
      simpa only [run] using ih _ hb

/-- C2: over any click-free event sequence from the initial state, the scale
is inside `[MIN_SCALE, MAX_SCALE]` after every prefix (clamping happens on
each update); and ten wheel updates of `+0.5` each (`deltaY = -500`) from
`scale = 1` saturate the scale at exactly `3`. -/
theorem c2_clamp_invariant (dist : Touch → Touch → ℚ) (world : Option WorldEl)
    (container : Option ContainerEl) (cont : ContainerEl) (es : List Event)
    (n : ℕ) (hnc : ∀ t, Event.click t ∉ es) :
    (mainCfg.minScale ≤
        (run mainCfg dist world container (es.take n) initState).1.camera.scale ∧
      (run mainCfg dist world container (es.take n) initState).1.camera.scale ≤
        mainCfg.maxScale) ∧
    (run mainCfg dist world (some cont)
        [Event.wheel (-500), Event.wheel (-500), Event.wheel (-500),
         Event.wheel (-500), Event.wheel (-500), Event.wheel (-500),
         Event.wheel (-500), Event.wheel (-500), Event.wheel (-500),
         Event.wheel (-500)] initState).1.camera.scale = 3 := by
  constructor
  · refine run_scale_bounds mainCfg dist world container (by norm_num [mainCfg])
      (es.take n) ?_ initState (by norm_num [mainCfg, initState])
      (by norm_num [mainCfg, initState])
    intro t ht
    exact hnc t ((List.take_sublist n es).subset ht)
  · norm_num [run, step, onWheel, updateCamera_fst, initState, mainCfg,
      min_def, max_def]

/-- Witness for C2: a single in-bounds wheel event and the wheel-saturation
scenario at the concrete fixtures. -/
theorem c2_clamp_invariant_witness :
    (mainCfg.minScale ≤
        (run mainCfg distW none none ([Event.wheel 100].take 1)
          initState).1.camera.scale ∧
      (run mainCfg distW none none ([Event.wheel 100].take 1)
          initState).1.camera.scale ≤ mainCfg.maxScale) ∧
    (run mainCfg distW none (some contW)
        [Event.wheel (-500), Event.wheel (-500), Event.wheel (-500),
         Event.wheel (-500), Event.wheel (-500), Event.wheel (-500),
         Event.wheel (-500), Event.wheel (-500), Event.wheel (-500),
         Event.wheel (-500)] initState).1.camera.scale = 3 :=
  c2_clamp_invariant distW none none contW [Event.wheel 100] 1
    (by intro t; simp)

/-- C7: in every reachable state, `MIN_SCALE ≤ scale` with `0 < MIN_SCALE`,
so the division by `currentScale` in the focus inversion never divides by
zero. -/
theorem c7_scale_never_zero (dist : Touch → Touch → ℚ) (world : Option WorldEl)
    (container : Option ContainerEl) (es : List Event) :
    mainCfg.minScale ≤
      (run mainCfg dist world container es initState).1.camera.scale ∧
    (0:ℚ) < mainCfg.minScale ∧
    (run mainCfg dist world container es initState).1.camera.scale ≠ 0 := by
  have h := run_scale_lb mainCfg dist world container (by norm_num [mainCfg])
    (by norm_num [mainCfg]) es initState (by norm_num [mainCfg, initState])
  have hpos : (0:ℚ) < mainCfg.minScale := by norm_num [mainCfg]
  exact ⟨h, hpos, (lt_of_lt_of_le hpos h).ne'⟩

/-- Inverting the rendered position of a world point under any camera with
nonzero scale recovers that world point exactly. -/
theorem worldOfScreen_screenOfWorld (originX originY baseX baseY : ℚ)
    (c : Camera) (wx wy : ℚ) (h : c.scale ≠ 0) :
    worldOfScreen originX originY baseX baseY c
        (screenOfWorld originX originY baseX baseY c wx wy).1
        (screenOfWorld originX originY baseX baseY c wx wy).2 = (wx, wy) := by
  unfold worldOfScreen screenOfWorld
  field_simp
  constructor <;> ring

/-- C3: for a marker whose screen center is the viewport center under the
identity camera, computing the focus target and re-deriving the marker's
world position from the new camera state (the inversion formula applied to
the marker's post-focus screen position) reproduces the original world
anchor exactly. -/
theorem c3_flyin_roundtrip (cfg : Config) (dist : Touch → Touch → ℚ)
    (w : WorldEl) (cont : ContainerEl) (m : Marker) (nm : String)
    (s : CtrlState) (originX originY baseX baseY ax ay : ℚ) (cam1 : Camera)
    (hname : m.name = some nm) (hne : nm.isEmpty = false)
    (hfly : s.isFlying = false) (_hcam : s.camera = ⟨0, 0, 1⟩)
    (_hox : originX = w.offsetWidth / 2) (_hoy : originY = w.offsetHeight / 2)
    (_hbx : baseX = cont.rect.left + cont.rect.width / 2)
    (_hby : baseY = cont.rect.top + cont.rect.height / 2)
    (_hcx : m.rect.left + m.rect.width / 2 = baseX)
    (_hcy : m.rect.top + m.rect.height / 2 = baseY)
    (_hanchor : (ax, ay) = worldOfScreen originX originY baseX baseY s.camera
        (m.rect.left + m.rect.width / 2) (m.rect.top + m.rect.height / 2))
    (hcam1 : cam1 = (step cfg dist (some w) (some cont)
        (Event.click (some m)) s).1.camera)
    (hts : cfg.flyInScale ≠ 0) :
    worldOfScreen originX originY baseX baseY cam1
        (screenOfWorld originX originY baseX baseY cam1 ax ay).1
        (screenOfWorld originX originY baseX baseY cam1 ax ay).2 = (ax, ay) := by
  have hscale : cam1.scale = cfg.flyInScale := by
    rw [hcam1]
    simp [step, focusOnPlanet, updateCamera, hname, hne, hfly]
  exact worldOfScreen_screenOfWorld originX originY baseX baseY cam1 ax ay
    (by rw [hscale]; exact hts)

/-- Witness for C3 at the concrete fixtures: `mCenterW` sits at the center
`(400, 300)` of `contW` under the identity camera; its anchor is `(0, 0)`
and the post-focus camera is `(13500, 13380, 10)`. -/
theorem c3_flyin_roundtrip_witness :
    worldOfScreen 1500 1500 400 300 ⟨13500, 13380, 10⟩
        (screenOfWorld 1500 1500 400 300 ⟨13500, 13380, 10⟩ 0 0).1
        (screenOfWorld 1500 1500 400 300 ⟨13500, 13380, 10⟩ 0 0).2 = (0, 0) :=
  c3_flyin_roundtrip mainCfg distW wW contW mCenterW "mars" idStateW
    1500 1500 400 300 0 0 ⟨13500, 13380, 10⟩
    rfl rfl rfl rfl
    (by norm_num [wW]) (by norm_num [wW]) (by norm_num [contW])
    (by norm_num [contW]) (by norm_num [mCenterW]) (by norm_num [mCenterW])
    (by norm_num [worldOfScreen, idStateW, initState, mCenterW, Prod.ext_iff])
    (by norm_num [step, focusOnPlanet, updateCamera, mainCfg, wW, contW,
      mCenterW, idStateW, initState, Camera.mk.injEq,
      show "mars".isEmpty = false from rfl])
    (by norm_num [mainCfg])

/-- With the world element absent, no handler ever emits an effect: there is
no transform write, no class or transition change, no navigation. -/
theorem step_world_none_no_effects (cfg : Config) (dist : Touch → Touch → ℚ)
    (container : Option ContainerEl) (e : Event) (s : CtrlState) :
    (step cfg dist none container e s).2 = [] := by
  cases e with
  | click target => rfl
  | mousedown op cx cy => cases container <;> rfl
  | mouseup => rfl
  | mousemove cx cy =>
      simp only [step, onMousemove, updateCamera]
      split_ifs <;> rfl
  | wheel d =>
      cases container with
      | none => rfl
      | some cont =>
          simp only [step, onWheel, updateCamera]
          split_ifs <;> rfl
  | touchstart op ts => cases container <;> rfl
  | touchmove ts =>
      cases container with
      | none => rfl
      | some cont =>
          rcases ts with _ | ⟨a, _ | ⟨b, _ | _⟩⟩ <;>
            simp only [step, onTouchmove, updateCamera] <;> split_ifs <;> rfl
  | touchend ts => cases container <;> rfl

/-- With the world element absent, an entire event sequence emits no
effects. -/
theorem run_world_none_no_effects (cfg : Config) (dist : Touch → Touch → ℚ)
    (container : Option ContainerEl) (es : List Event) : ∀ s : CtrlState,
    (run cfg dist none container es s).2 = [] := by
  induction es with
  | nil => intro s; rfl
  | cons e tl ih =>
      intro s
      simp only [run, step_world_none_no_effects, ih, List.nil_append]

/-- With the container element absent, every single step is a complete no-op
from any state that is not mid-drag (and no drag can ever start, since the
`mousedown` listener is bound to the missing container). -/
theorem step_container_none_noop (cfg : Config) (dist : Touch → Touch → ℚ)
    (world : Option WorldEl) (e : Event) (s : CtrlState)
    (hd : s.isDragging = false) :
    step cfg dist world none e s = (s, []) := by
  cases e with
  | click target =>
      cases world with
      | none => rfl
      | some w =>
          cases target with
          | none => rfl
          | some m =>
              by_cases hfly : s.isFlying <;> simp [step, hfly, focusOnPlanet]
  | mousedown op cx cy => rfl
  | mouseup =>
      simp only [step]
      rw [← hd]
  | mousemove cx cy => simp [step, onMousemove, hd]
  | wheel d => rfl
  | touchstart op ts => rfl
  | touchmove ts => rfl
  | touchend ts => rfl

/-- With the container element absent, an entire event sequence starting
outside a drag leaves the state untouched and emits nothing. -/
theorem run_container_none_noop (cfg : Config) (dist : Touch → Touch → ℚ)
    (world : Option WorldEl) (es : List Event) : ∀ s : CtrlState,
    s.isDragging = false → run cfg dist world none es s = (s, []) := by
  induction es with
  | nil => intro s _; rfl
  | cons e tl ih =>
      intro s hd
      simp only [run, step_container_none_noop cfg dist world e s hd, ih s hd,
        List.nil_append]

/-- C5 counterexample: the claim "every subsequent operation (pan, zoom,
transform application, focus) is a no-op" fails when only the world element
is missing — a mousedown at `(0, 0)` followed by a mousemove to `(5, 0)`
still mutates the internal camera offset (from `-1500` to `-1495`), even
though nothing is ever rendered. -/
theorem c5_missing_world_pan_mutates :
    (run p6Cfg distW none (some contW)
        [Event.mousedown false 0 0, Event.mousemove 5 0]
        initState).1.camera.x ≠ initState.camera.x := by
  norm_num [run, step, onMousedown, onMousemove, updateCamera, initState,
    p6Cfg]

/-- C5 (amended): when either element is absent at initialization, the
`part_006` controller logs a warning; afterwards no effect is ever emitted
(no transform write, class, transition, or navigation) when the world
element is the missing one, and when the container element is missing every
operation additionally leaves the whole state unchanged.  (Only pan/zoom
mutation of the internal camera fields survives in the world-missing case,
and `cameraController.js` logs no warning — the deviations forced by the
counterexample.) -/
theorem c5_missing_elements_amended (cfg : Config) (dist : Touch → Touch → ℚ)
    (world : Option WorldEl) (container : Option ContainerEl)
    (es : List Event) (s : CtrlState) :
    (world = none ∨ container = none →
      p6InitEffects world container =
        [Effect.warn "Camera controller: missing #viewport or #solar-system"]) ∧
    (world = none → (run cfg dist world container es s).2 = []) ∧
    (container = none → s.isDragging = false →
      run cfg dist world container es s = (s, [])) := by
  refine ⟨?_, ?_, ?_⟩
  · rintro (h | h) <;> simp [p6InitEffects, h]
  · rintro rfl
    exact run_world_none_no_effects cfg dist container es s
  · rintro rfl hd
    exact run_container_none_noop cfg dist world es s hd

/-- Witness for C5 (amended), exercising both missing-element cases at the
concrete fixtures. -/
theorem c5_missing_elements_amended_witness :
    p6InitEffects none (some contW) =
      [Effect.warn "Camera controller: missing #viewport or #solar-system"] ∧
    (run mainCfg distW none (some contW) [Event.wheel 100] initState).2 = [] ∧
    run mainCfg distW (some wW) none [Event.wheel 100] initState =
      (initState, []) :=
  ⟨(c5_missing_elements_amended mainCfg distW none (some contW)
      [Event.wheel 100] initState).1 (Or.inl rfl),
   (c5_missing_elements_amended mainCfg distW none (some contW)
      [Event.wheel 100] initState).2.1 rfl,
   (c5_missing_elements_amended mainCfg distW (some wW) none
      [Event.wheel 100] initState).2.2 rfl rfl⟩

end Solar
